import Mathlib

/-!
Verification of the okteto stack-to-cluster-manifest compiler
(`pkg/cmd/stack/translate.go`), against its natural-language specification.

The repository snapshot contains the package's test file
(`src/unnamed/part_000`, i.e. `translate_test.go`) but not the
implementation itself, so every translation function below is modelled
from the specification, with the exact expected outputs pinned by the
test file wherever the tests use deep equality.

Label keys, annotation keys and data keys are abstract constants in the
spec (the Go code takes them from the `model` package, which is not part
of the snapshot); their concrete string values are irrelevant to every
claim, so we use the spec's own names as values.
-/

set_option maxHeartbeats 1000000

namespace Okteto

/-- Modelled from the spec: NamingScheme label key `stack-name`
(`model.StackNameLabel` in the missing code). -/
def StackNameLabel : String := "stack-name"

/-- Modelled from the spec: NamingScheme label key `stack-service-name`
(`model.StackServiceNameLabel` in the missing code). -/
def StackServiceNameLabel : String := "stack-service-name"

/-- Modelled from the spec: NamingScheme label key `stack-endpoint-name`
(`model.StackEndpointNameLabel` in the missing code). -/
def StackEndpointNameLabel : String := "stack-endpoint-name"

/-- Modelled from the spec: NamingScheme label key prefixed to a volume's
local identity (`model.StackVolumeNameLabel` in the missing code). -/
def StackVolumeNameLabel : String := "stack-volume-name"

/-- Modelled from the spec: the stack-owned-object marker label
(`model.StackLabel` in the missing code); the test pins its value
on the config map to the string true. -/
def StackLabel : String := "stack"

/-- Modelled from the spec: the auto-generated-host annotation key
(`model.OktetoIngressAutoGenerateHost` in the missing code). -/
def OktetoIngressAutoGenerateHost : String := "auto-generate-host"

/-- Modelled from the spec: config-map data key holding the stack name
(`NameField` in the missing code). -/
def NameField : String := "name"

/-- Modelled from the spec: config-map data key holding the encoded
manifest (`YamlField` in the missing code). -/
def YamlField : String := "yaml"

/-- Modelled from the spec: the fixed name of the single shared
persistent claim (`pvcName` in the missing code). -/
def pvcName : String := "pvc"

/-- A declared port of a stack service (`model.Port`): host port 0 means
"no host port declared", matching the Go zero value. -/
structure Port where
  hostPort : Nat := 0
  containerPort : Nat := 0
  protocol : String := "TCP"
deriving DecidableEq

/-- A declared environment entry (`model.EnvVar`). -/
structure EnvVar where
  name : String := ""
  value : String := ""
deriving DecidableEq

/-- A declared stack volume (`model.StackVolume`): local identity and
remote mount path. -/
structure StackVolume where
  localPath : String := ""
  remotePath : String := ""
deriving DecidableEq

/-- HTTP health-check variant (`model.HTTPHealtcheck`). -/
structure HTTPHealtcheck where
  path : String := ""
  port : Nat := 0
deriving DecidableEq

/-- A service health-check spec (`model.HealthCheck`); durations are in
nanoseconds, matching Go `time.Duration`. -/
structure HealthCheck where
  http : Option HTTPHealtcheck := none
  test : List String := []
  startPeriod : Nat := 0
  retries : Nat := 0
  timeout : Nat := 0
  interval : Nat := 0
deriving DecidableEq

/-- A stack service (`model.Service`), restricted to the fields the
translation functions under verification consume. -/
structure Service where
  labels : List (String × String) := []
  annotations : List (String × String) := []
  image : String := ""
  replicas : Nat := 1
  stopGracePeriod : Nat := 0
  entrypoint : List String := []
  command : List String := []
  environment : List EnvVar := []
  ports : List Port := []
  capAdd : List String := []
  capDrop : List String := []
  volumes : List StackVolume := []
  volumeMounts : List StackVolume := []
  healtcheck : Option HealthCheck := none
  restartPolicy : String := "Always"
  backOffLimit : Nat := 0
  public : Bool := false
deriving DecidableEq

instance : Inhabited Service := ⟨{}⟩

/-- One rule of an endpoint (`model.EndpointRule`). -/
structure EndpointRule where
  path : String := ""
  service : String := ""
  port : Nat := 0
deriving DecidableEq

/-- A declared endpoint (`model.Endpoint`). -/
structure Endpoint where
  labels : List (String × String) := []
  annotations : List (String × String) := []
  rules : List EndpointRule := []
deriving DecidableEq

instance : Inhabited Endpoint := ⟨{}⟩

/-- The stack (`model.Stack`): name, raw manifest bytes, services and
endpoints.  Go maps are modelled as association lists. -/
structure Stack where
  name : String := ""
  manifest : List Nat := []
  services : List (String × Service) := []
  endpoints : List (String × Endpoint) := []
deriving DecidableEq

/-- Service lookup (`s.Services[svcName]` in Go; the translation
functions assume the name is present). -/
def Stack.svc (s : Stack) (svcName : String) : Service :=
  (s.services.lookup svcName).getD default

/-- Endpoint lookup (`s.Endpoints[name]` in Go). -/
def Stack.endpoint (s : Stack) (name : String) : Endpoint :=
  (s.endpoints.lookup name).getD default

/-- First-match association-list lookup, the observation used to state
label-map membership (Go maps have unique keys). -/
def lookupL (l : List (String × String)) (k : String) : Option String :=
  match l with
  | [] => none
  | (k2, v) :: rest => if k2 = k then some v else lookupL rest k

/-- Modelled from the spec: derived labels of a service-scoped object,
merged with the service's declared labels; derived keys win on
collision (they come first for `lookupL`). -/
def svcLabels (svcName : String) (s : Stack) (svc : Service) : List (String × String) :=
  (StackNameLabel, s.name) :: (StackServiceNameLabel, svcName) :: svc.labels

/-- Modelled from the spec: the workload-to-network selector, exactly the
two derived labels. -/
def svcSelector (svcName : String) (s : Stack) : List (String × String) :=
  [(StackNameLabel, s.name), (StackServiceNameLabel, svcName)]

/-- A Kubernetes service port (`apiv1.ServicePort`). -/
structure ServicePort where
  name : String
  port : Nat
  targetPort : Nat
  protocol : String
deriving DecidableEq

/-- The emitted cluster-internal exposure object (`apiv1.Service`). -/
structure KubeService where
  name : String
  labels : List (String × String)
  annotations : List (String × String)
  type : String
  selector : List (String × String)
  ports : List ServicePort
deriving DecidableEq

/-- A container volume mount (`apiv1.VolumeMount`); empty sub-path means
"no sub-path set". -/
structure VolumeMount where
  mountPath : String
  name : String
  subPath : String := ""
deriving DecidableEq

/-- Capability lists (`apiv1.Capabilities`). -/
structure Capabilities where
  add : List String
  drop : List String
deriving DecidableEq

/-- A container security context (`apiv1.SecurityContext`): the optional
wrapper distinguishes unset (nil) from set. -/
structure SecurityContext where
  capabilities : Capabilities
deriving DecidableEq

/-- A container port of the pod template (`apiv1.ContainerPort`): only
the container port is ever copied, never the host port. -/
structure ContainerPort where
  containerPort : Nat
deriving DecidableEq

/-- A pod container (`apiv1.Container`), restricted to the fields the
claims observe. -/
structure Container where
  name : String
  image : String
  imagePullPolicy : String := ""
  command : List String := []
  args : List String := []
  env : List EnvVar := []
  ports : List ContainerPort := []
  securityContext : Option SecurityContext := none
  volumeMounts : List VolumeMount := []
deriving DecidableEq

/-- An existence requirement of a label selector
(`metav1.LabelSelectorRequirement`). -/
structure LabelSelectorRequirement where
  key : String
  operator : String
deriving DecidableEq

/-- A required pod-affinity term (`apiv1.PodAffinityTerm`). -/
structure PodAffinityTerm where
  topologyKey : String
  matchExpressions : List LabelSelectorRequirement
deriving DecidableEq

/-- Pod affinity (`apiv1.Affinity`): required-during-scheduling terms. -/
structure Affinity where
  requiredTerms : List PodAffinityTerm
deriving DecidableEq

/-- An HTTP probe action (`apiv1.HTTPGetAction`). -/
structure HTTPGetAction where
  path : String
  port : Nat
deriving DecidableEq

/-- A health probe (`apiv1.Probe`); exactly one of the two handlers is
set by the synthesizer. -/
structure Probe where
  httpGet : Option HTTPGetAction := none
  exec : Option (List String) := none
  initialDelaySeconds : Nat := 0
  failureThreshold : Nat := 0
  timeoutSeconds : Nat := 0
  periodSeconds : Nat := 0
deriving DecidableEq

/-- A pod spec (`apiv1.PodSpec`), restricted to the observed fields. -/
structure PodSpec where
  terminationGracePeriodSeconds : Nat
  initContainers : List Container := []
  containers : List Container
  affinity : Option Affinity := none
deriving DecidableEq

/-- A pod template (`apiv1.PodTemplateSpec`). -/
structure PodTemplateSpec where
  labels : List (String × String)
  annotations : List (String × String)
  spec : PodSpec
deriving DecidableEq

/-- A volume-claim template (`apiv1.PersistentVolumeClaim`), restricted
to its identity fields. -/
structure PVC where
  name : String
  labels : List (String × String)
  annotations : List (String × String)
deriving DecidableEq

/-- The emitted Deployment workload (`appsv1.Deployment`). -/
structure Deployment where
  name : String
  labels : List (String × String)
  annotations : List (String × String)
  replicas : Nat
  selector : List (String × String)
  template : PodTemplateSpec
deriving DecidableEq

/-- The emitted StatefulSet workload (`appsv1.StatefulSet`). -/
structure StatefulSet where
  name : String
  labels : List (String × String)
  annotations : List (String × String)
  replicas : Nat
  selector : List (String × String)
  template : PodTemplateSpec
  volumeClaimTemplates : List PVC
deriving DecidableEq

/-- The emitted Job workload (`batchv1.Job`).  Per the spec's
polymorphic-workload design note, the shared field set carries a
volume-claim-template list so that its absence on a Job is statable;
the batch variant never attaches one. -/
structure Job where
  name : String
  labels : List (String × String)
  annotations : List (String × String)
  completions : Nat
  parallelism : Nat
  backoffLimit : Nat
  template : PodTemplateSpec
  volumeClaimTemplates : List PVC
deriving DecidableEq

/-- One routing path of an ingress (`networkingv1.HTTPIngressPath`). -/
structure IngressPath where
  path : String
  pathType : String
  backendService : String
  backendPort : Nat
deriving DecidableEq

/-- The emitted routing object (`networkingv1.Ingress`), restricted to
its single rule's path list and metadata. -/
structure Ingress where
  name : String
  labels : List (String × String)
  annotations : List (String × String)
  paths : List IngressPath
deriving DecidableEq

/-- The emitted metadata snapshot (`apiv1.ConfigMap`). -/
structure ConfigMap where
  name : String
  labels : List (String × String)
  data : List (String × String)
deriving DecidableEq

/-- The workload kind chosen for a service. -/
inductive WorkloadKind where
  | deployment
  | statefulSet
  | job
deriving DecidableEq

/-- Modelled from the spec: workload-kind selection — batch restart
policy wins, then named volumes, else Deployment. -/
def workloadKind (svc : Service) : WorkloadKind :=
  if svc.restartPolicy ≠ "Always" then WorkloadKind.job
  else if svc.volumes.isEmpty then WorkloadKind.deployment
  else WorkloadKind.statefulSet

/-- Character-wise ASCII lowercasing (`strings.ToLower` as applied to
protocol names). -/
def lowerString (s : String) : String := String.mk (s.toList.map Char.toLower)

/-- Modelled from the spec: NamingScheme service-port name
`p-<port>-<target>-<lowercase protocol>`. -/
def servicePortName (port target : Nat) (protocol : String) : String :=
  "p-" ++ toString port ++ "-" ++ toString target ++ "-" ++ lowerString protocol

/-- Modelled from the spec: the port de-duplication loop of the network
synthesizer — per declared port, the canonical entry always, then the
host-mapped entry when a distinct host port is declared. -/
def translateServicePorts (svc : Service) : List ServicePort :=
  svc.ports.foldl
    (fun acc p =>
      let acc := acc ++
        [{ name := servicePortName p.containerPort p.containerPort p.protocol,
           port := p.containerPort, targetPort := p.containerPort,
           protocol := p.protocol }]
      if p.hostPort != 0 && p.hostPort != p.containerPort then
        acc ++
          [{ name := servicePortName p.hostPort p.containerPort p.protocol,
             port := p.hostPort, targetPort := p.containerPort,
             protocol := p.protocol }]
      else acc)
    []

/-- The spec's per-port description of the de-duplication result, used to
characterize `translateServicePorts`: canonical entry first, then the
mapped entry when the host port is set and distinct. -/
def portEntriesSpec (p : Port) : List ServicePort :=
  { name := servicePortName p.containerPort p.containerPort p.protocol,
    port := p.containerPort, targetPort := p.containerPort,
    protocol := p.protocol } ::
  (if p.hostPort != 0 && p.hostPort != p.containerPort then
    [{ name := servicePortName p.hostPort p.containerPort p.protocol,
       port := p.hostPort, targetPort := p.containerPort,
       protocol := p.protocol }]
  else [])

/-- Modelled from the spec: the cluster-internal exposure object per
service — always cluster-internal, selector is the two derived labels. -/
def translateService (svcName : String) (s : Stack) : KubeService :=
  let svc := s.svc svcName
  { name := svcName,
    labels := svcLabels svcName s svc,
    annotations := svc.annotations,
    type := "ClusterIP",
    selector := svcSelector svcName s,
    ports := translateServicePorts svc }

/-- Modelled from the spec: environment translation — the Go loop that
appends each declared entry whose name is non-empty, starting from an
empty (non-nil) slice. -/
def translateServiceEnvironment (svc : Service) : List EnvVar :=
  svc.environment.foldl
    (fun acc e => if e.name != "" then acc ++ [e] else acc) []

/-- Modelled from the spec: probe synthesis — nil health-check yields
nil probe; otherwise HTTP handler if declared, else exec handler, with
durations converted from nanoseconds to whole seconds. -/
def getSvcProbe (svc : Service) : Option Probe :=
  match svc.healtcheck with
  | none => none
  | some hc =>
    some
      { httpGet := hc.http.map fun h => { path := h.path, port := h.port },
        exec := if hc.http.isSome then none else some hc.test,
        initialDelaySeconds := hc.startPeriod / 1000000000,
        failureThreshold := hc.retries,
        timeoutSeconds := hc.timeout / 1000000000,
        periodSeconds := hc.interval / 1000000000 }

/-- Modelled from the spec: one required pod-affinity term per named
volume, keyed on the volume's affinity label key, existence only. -/
def affinityTerms (volumes : List StackVolume) : List PodAffinityTerm :=
  volumes.map fun v =>
    { topologyKey := "kubernetes.io/hostname",
      matchExpressions :=
        [{ key := StackVolumeNameLabel ++ "-" ++ v.localPath,
           operator := "Exists" }] }

/-- Modelled from the spec: affinity synthesis — none when the service
declares no named volumes (plain volume-mounts excluded), otherwise the
per-volume required terms in declaration order. -/
def translateAffinity (svc : Service) : Option Affinity :=
  let terms := affinityTerms svc.volumes
  if terms.isEmpty then none else some { requiredTerms := terms }

/-- Modelled from the spec: the container security context is left unset
unless a capability list is non-empty. -/
def getSvcSecurityContext (svc : Service) : Option SecurityContext :=
  if svc.capAdd.isEmpty && svc.capDrop.isEmpty then none
  else some { capabilities := { add := svc.capAdd, drop := svc.capDrop } }

/-- Modelled from the spec: sub-path of the i-th declared volume. -/
def subPathName (i : Nat) : String := "data-" ++ toString i

/-- Modelled from the spec: the main container's volume-mount loop — the
i-th declared volume mounts the shared claim at its remote path with the
matching sub-path (`i` is the loop counter). -/
def volumeMountsFrom (i : Nat) : List StackVolume → List VolumeMount
  | [] => []
  | v :: rest =>
    { mountPath := v.remotePath, name := pvcName, subPath := subPathName i } ::
      volumeMountsFrom (i + 1) rest

/-- Main-container volume mounts of a service, in declaration order. -/
def mainVolumeMounts (svc : Service) : List VolumeMount :=
  volumeMountsFrom 0 svc.volumes

/-- Modelled from the spec: the seed init container's mount loop — the
i-th declared volume mounts the shared claim at the staging path
`/init-volume-<i>` with the matching sub-path. -/
def initVolumeMountsFrom (i : Nat) : List StackVolume → List VolumeMount
  | [] => []
  | _ :: rest =>
    { mountPath := "/init-volume-" ++ toString i, name := pvcName,
      subPath := subPathName i } ::
      initVolumeMountsFrom (i + 1) rest

/-- Modelled from the spec: the seed command's per-volume copy clauses —
each copies the volume's remote path into its staging path, tolerating
failure. -/
def copyCommandsFrom (i : Nat) : List StackVolume → String
  | [] => ""
  | v :: rest =>
    " && (cp -Rv " ++ v.remotePath ++ "/. /init-volume-" ++ toString i ++
      " || true)" ++ copyCommandsFrom (i + 1) rest

/-- The full seed init-container shell command. -/
def initContainerCommand (svc : Service) : String :=
  "echo initializing volume..." ++ copyCommandsFrom 0 svc.volumes

/-- Modelled from the spec: the generic-image init container that makes
the claim's root mount world-writable at the fixed staging path. -/
def chmodInitContainer (svcName : String) : Container :=
  { name := "init-" ++ svcName,
    image := "busybox",
    command := ["sh", "-c", "chmod 777 /data"],
    volumeMounts := [{ mountPath := "/data", name := pvcName }] }

/-- Modelled from the spec: the volume-seed init container, using the
service's own image with pull-policy "if not present". -/
def seedInitContainer (svcName : String) (svc : Service) : Container :=
  { name := "init-volume-" ++ svcName,
    image := svc.image,
    imagePullPolicy := "IfNotPresent",
    command := ["sh", "-c", initContainerCommand svc],
    volumeMounts := initVolumeMountsFrom 0 svc.volumes }

/-- Modelled from the spec: no volumes — no init containers; otherwise
the chmod container then the seed container, in that order. -/
def getInitContainers (svcName : String) (svc : Service) : List Container :=
  if svc.volumes.isEmpty then []
  else [chmodInitContainer svcName, seedInitContainer svcName svc]

/-- Modelled from the spec: the shared main-container assembly —
entrypoint as command, command as args, filtered environment, container
ports only, conditional security context, per-volume mounts. -/
def translateContainer (svcName : String) (svc : Service) : Container :=
  { name := svcName,
    image := svc.image,
    command := svc.entrypoint,
    args := svc.command,
    env := translateServiceEnvironment svc,
    ports := svc.ports.map fun p => { containerPort := p.containerPort },
    securityContext := getSvcSecurityContext svc,
    volumeMounts := mainVolumeMounts svc }

/-- Modelled from the spec: the shared pod template of every workload
kind. -/
def translatePodTemplate (svcName : String) (s : Stack) (svc : Service) :
    PodTemplateSpec :=
  { labels := svcLabels svcName s svc,
    annotations := svc.annotations,
    spec :=
      { terminationGracePeriodSeconds := svc.stopGracePeriod,
        initContainers := getInitContainers svcName svc,
        containers := [translateContainer svcName svc],
        affinity := translateAffinity svc } }

/-- Modelled from the spec: the Deployment workload. -/
def translateDeployment (svcName : String) (s : Stack) : Deployment :=
  let svc := s.svc svcName
  { name := svcName,
    labels := svcLabels svcName s svc,
    annotations := svc.annotations,
    replicas := svc.replicas,
    selector := svcSelector svcName s,
    template := translatePodTemplate svcName s svc }

/-- Modelled from the spec: the StatefulSet workload, with its single
volume-claim template. -/
def translateStatefulSet (svcName : String) (s : Stack) : StatefulSet :=
  let svc := s.svc svcName
  { name := svcName,
    labels := svcLabels svcName s svc,
    annotations := svc.annotations,
    replicas := svc.replicas,
    selector := svcSelector svcName s,
    template := translatePodTemplate svcName s svc,
    volumeClaimTemplates :=
      [{ name := pvcName, labels := svcLabels svcName s svc,
         annotations := svc.annotations }] }

/-- Modelled from the spec: the Job workload — completions from the
replica count, parallelism always 1, backoff limit from the declared
retry limit, and never a volume-claim template. -/
def translateJob (svcName : String) (s : Stack) : Job :=
  let svc := s.svc svcName
  { name := svcName,
    labels := svcLabels svcName s svc,
    annotations := svc.annotations,
    completions := svc.replicas,
    parallelism := 1,
    backoffLimit := svc.backOffLimit,
    template := translatePodTemplate svcName s svc,
    volumeClaimTemplates := [] }

/-- Modelled from the spec: the per-service-port routing object; its
label set is pinned by the test to the stack-name label plus the
service's declared labels (no service-name label). -/
def translateServiceIngressV1 (ingressName svcName : String) (port : Nat)
    (s : Stack) : Ingress :=
  let svc := s.svc svcName
  { name := ingressName,
    labels := (StackNameLabel, s.name) :: svc.labels,
    annotations := (OktetoIngressAutoGenerateHost, "true") :: svc.annotations,
    paths :=
      [{ path := "/", pathType := "ImplementationSpecific",
         backendService := svcName, backendPort := port }] }

/-- Modelled from the spec: the per-endpoint routing object — its path
list is exactly the endpoint's rule list. -/
def translateEndpointIngressV1 (endpointName : String) (s : Stack) : Ingress :=
  let ep := s.endpoint endpointName
  { name := endpointName,
    labels := (StackNameLabel, s.name) ::
      (StackEndpointNameLabel, endpointName) :: ep.labels,
    annotations := (OktetoIngressAutoGenerateHost, "true") :: ep.annotations,
    paths := ep.rules.map fun r =>
      { path := r.path, pathType := "ImplementationSpecific",
        backendService := r.service, backendPort := r.port } }

/-- The standard base64 alphabet, in index order. -/
def b64alphabet : List Char :=
  "ABCDEFGHIJKLMNOPQRSTUVWXYZabcdefghijklmnopqrstuvwxyz0123456789+/".toList

/-- The character encoding a sextet value. -/
def b64char (n : Nat) : Char := b64alphabet.getD n '='

/-- Standard base64 encoding of a byte list (three bytes to four
characters, padded with `=`), as `base64.StdEncoding.EncodeToString`. -/
def b64encodeChunks : List Nat → List Char
  | b1 :: b2 :: b3 :: rest =>
    b64char (b1 / 4) :: b64char (b1 % 4 * 16 + b2 / 16) ::
      b64char (b2 % 16 * 4 + b3 / 64) :: b64char (b3 % 64) ::
      b64encodeChunks rest
  | [b1, b2] =>
    [b64char (b1 / 4), b64char (b1 % 4 * 16 + b2 / 16),
     b64char (b2 % 16 * 4), '=']
  | [b1] => [b64char (b1 / 4), b64char (b1 % 4 * 16), '=', '=']
  | [] => []

/-- Base64 encoding to a string. -/
def b64encode (bs : List Nat) : String := String.mk (b64encodeChunks bs)

/-- The sextet value of a base64 character, if any. -/
def b64index (c : Char) : Option Nat :=
  let i := b64alphabet.indexOf c
  if i < 64 then some i else none

/-- Standard base64 decoding of a character list. -/
def b64decodeChunks : List Char → Option (List Nat)
  | c1 :: c2 :: c3 :: c4 :: rest =>
    if c3 = '=' then
      if c4 = '=' ∧ rest = [] then
        match b64index c1, b64index c2 with
        | some n1, some n2 => some [n1 * 4 + n2 / 16]
        | _, _ => none
      else none
    else if c4 = '=' then
      if rest = [] then
        match b64index c1, b64index c2, b64index c3 with
        | some n1, some n2, some n3 =>
          some [n1 * 4 + n2 / 16, n2 % 16 * 16 + n3 / 4]
        | _, _, _ => none
      else none
    else
      match b64index c1, b64index c2, b64index c3, b64index c4,
          b64decodeChunks rest with
      | some n1, some n2, some n3, some n4, some bs =>
        some ((n1 * 4 + n2 / 16) :: (n2 % 16 * 16 + n3 / 4) ::
          (n3 % 4 * 64 + n4) :: bs)
      | _, _, _, _, _ => none
  | [] => some []
  | _ => none

/-- Base64 decoding of a string. -/
def b64decode (str : String) : Option (List Nat) :=
  b64decodeChunks str.toList

/-- Modelled from the spec: the metadata snapshot — one config map per
stack, named with the okteto prefix, labeled as a stack-owned object,
carrying the stack name and the base64-encoded manifest under the two
well-known data keys. -/
def translateConfigMap (s : Stack) : ConfigMap :=
  { name := "okteto-" ++ s.name,
    labels := [(StackLabel, "true")],
    data := [(NameField, s.name), (YamlField, b64encode s.manifest)] }

/-! ### Concrete fixtures from the test file -/

/-- The service name used throughout the test file. -/
def svcNameFx : String := "svcName"

/-- The string value of the stack-owned marker label. -/
def trueStr : String := "true"

/-- Declared-label key used by the tests. -/
def label1 : String := "label1"

/-- Declared-label value used by the tests. -/
def value1 : String := "value1"

/-- The fully-populated batch service of the Job-with-volumes test. -/
def wlService : Service :=
  { labels := [("label1", "value1"), ("label2", "value2")],
    annotations := [("annotation1", "value1"), ("annotation2", "value2")],
    image := "image",
    replicas := 3,
    stopGracePeriod := 20,
    entrypoint := ["command1", "command2"],
    command := ["args1", "args2"],
    environment := [{ name := "env1", value := "value1" },
                    { name := "env2", value := "value2" }],
    ports := [{ containerPort := 80 }, { containerPort := 90 }],
    capAdd := ["CAP_ADD"],
    capDrop := ["CAP_DROP"],
    restartPolicy := "Never",
    backOffLimit := 5,
    volumes := [{ remotePath := "/volume1" }, { remotePath := "/volume2" }] }

/-- The stack of the workload tests. -/
def jobStack : Stack :=
  { name := "stackName", services := [(svcNameFx, wlService)] }

/-- The stack of the service-translation test (two declared ports, one
with a distinct host port). -/
def portStack : Stack :=
  { name := "stackName",
    services := [(svcNameFx,
      { labels := [("label1", "value1"), ("label2", "value2")],
        annotations := [("annotation1", "value1"), ("annotation2", "value2")],
        ports := [{ hostPort := 82, containerPort := 80, protocol := "TCP" },
                  { containerPort := 90, protocol := "TCP" }] })] }

/-- The port of the single-entry service-translation test. -/
def redisPort : Port :=
  { hostPort := 6379, containerPort := 6379, protocol := "TCP" }

/-- The ingress name of the per-service-port ingress test. -/
def ingNameFx : String := "svc1-8080"

/-- The service name of the per-service-port ingress test. -/
def svc1Fx : String := "svc1"

/-- An endpoint name for the per-endpoint ingress clause. -/
def epNameFx : String := "endpoint1"

/-- The stack of the per-service-port ingress test. -/
def ingressStack : Stack :=
  { name := "stackName",
    services := [(svc1Fx,
      { labels := [("label1", "value1")],
        annotations := [("annotation1", "value1")],
        image := "image",
        ports := [{ hostPort := 8080, containerPort := 8080 },
                  { hostPort := 80, containerPort := 80 }] })] }

/-- The health check of the probe test: HTTP handler, 30s start delay,
5 retries, 5m timeout, 45s interval (durations in nanoseconds). -/
def probeHc : HealthCheck :=
  { http := some { path := "/", port := 8080 },
    startPeriod := 30000000000,
    retries := 5,
    timeout := 300000000000,
    interval := 45000000000 }

/-- The service of the probe test. -/
def probeSvc : Service := { healtcheck := some probeHc }

/-- A service with every field at its zero value. -/
def nilSvc : Service := {}

/-- The single-volume service of the affinity test. -/
def affSvc : Service :=
  { volumes := [{ localPath := "test", remotePath := "/var" }] }

/-- The stack of the config-map test; the manifest bytes spell the word
manifest. -/
def cmStack : Stack :=
  { name := "stackName",
    manifest := [109, 97, 110, 105, 102, 101, 115, 116],
    services := [(svcNameFx, { image := "image" })] }

/-! ### Helper lemmas -/

theorem b64char_ne_pad : ∀ n, n < 64 → b64char n ≠ '=' := by decide

theorem b64index_b64char : ∀ n, n < 64 → b64index (b64char n) = some n := by decide

/-- Base64 decoding inverts encoding on byte lists. -/
theorem b64_roundtrip_chunks :
    ∀ (bs : List Nat), (∀ b ∈ bs, b < 256) →
      b64decodeChunks (b64encodeChunks bs) = some bs
  | [], _ => rfl
  | [b1], h => by
      have hb1 : b1 < 256 := h b1 (by simp)
      have h1 : b1 / 4 < 64 := by omega
      have h2 : b1 % 4 * 16 < 64 := by omega
      simp [b64encodeChunks, b64decodeChunks,
        b64index_b64char _ h1, b64index_b64char _ h2]
      omega
  | [b1, b2], h => by
      have hb1 : b1 < 256 := h b1 (by simp)
      have hb2 : b2 < 256 := h b2 (by simp)
      have h1 : b1 / 4 < 64 := by omega
      have h2 : b1 % 4 * 16 + b2 / 16 < 64 := by omega
      have h3 : b2 % 16 * 4 < 64 := by omega
      simp [b64encodeChunks, b64decodeChunks, if_neg (b64char_ne_pad _ h3),
        b64index_b64char _ h1, b64index_b64char _ h2, b64index_b64char _ h3]
      omega
  | b1 :: b2 :: b3 :: rest, h => by
      have hb1 : b1 < 256 := h b1 (by simp)
      have hb2 : b2 < 256 := h b2 (by simp)
      have hb3 : b3 < 256 := h b3 (by simp)
      have ih := b64_roundtrip_chunks rest (fun b hb => h b (by simp [hb]))
      have h1 : b1 / 4 < 64 := by omega
      have h2 : b1 % 4 * 16 + b2 / 16 < 64 := by omega
      have h3 : b2 % 16 * 4 + b3 / 64 < 64 := by omega
      have h4 : b3 % 64 < 64 := by omega
      simp [b64encodeChunks, b64decodeChunks, if_neg (b64char_ne_pad _ h3),
        if_neg (b64char_ne_pad _ h4),
        b64index_b64char _ h1, b64index_b64char _ h2, b64index_b64char _ h3,
        b64index_b64char _ h4, ih]
      omega

/-- Base64 decoding inverts encoding, at the string level. -/
theorem b64_roundtrip (bs : List Nat) (h : ∀ b ∈ bs, b < 256) :
    b64decode (b64encode bs) = some bs := by
  simpa [b64decode, b64encode, String.toList] using b64_roundtrip_chunks bs h

end Okteto



namespace Okteto

/-- A fold whose step appends a per-element block flattens those blocks. -/
theorem foldl_append_flatMap {α β : Type} (f : α → List β)
    (g : List β → α → List β) (hg : ∀ acc x, g acc x = acc ++ f x) :
    ∀ (l : List α) (acc : List β), l.foldl g acc = acc ++ l.flatMap f := by
  intro l
  induction l with
  | nil => intro acc; simp
  | cons x rest ih =>
    intro acc
    rw [List.foldl_cons, hg, ih, List.flatMap_cons, List.append_assoc]

theorem flatMap_ite_singleton_eq_filter {α : Type} (p : α → Bool) :
    ∀ l : List α, (l.flatMap fun x => if p x then [x] else []) = l.filter p := by
  intro l
  induction l with
  | nil => rfl
  | cons x rest ih =>
    rw [List.flatMap_cons, List.filter_cons, ih]
    by_cases h : p x = true
    · rw [if_pos h, if_pos h, List.singleton_append]
    · rw [if_neg h, if_neg h, List.nil_append]

/-- The environment loop is the order-preserving filter on non-empty names. -/
theorem translateServiceEnvironment_eq_filter (svc : Service) :
    translateServiceEnvironment svc =
      svc.environment.filter (fun e => e.name != "") := by
  have hg : ∀ (acc : List EnvVar) (e : EnvVar),
      (if e.name != "" then acc ++ [e] else acc) =
        acc ++ (if e.name != "" then [e] else []) := by
    intro acc e
    by_cases h : (e.name != "") = true
    · rw [if_pos h, if_pos h]
    · rw [if_neg h, if_neg h, List.append_nil]
  have h2 : ([] : List EnvVar) ++
      (svc.environment.flatMap fun e => if e.name != "" then [e] else []) =
      svc.environment.filter (fun e => e.name != "") := by
    rw [List.nil_append, flatMap_ite_singleton_eq_filter (fun (e : EnvVar) => e.name != "")]
  exact (foldl_append_flatMap (fun e => if e.name != "" then [e] else [])
      (fun acc e => if e.name != "" then acc ++ [e] else acc) hg
      svc.environment []).trans h2

/-- The port de-duplication loop flattens the per-port entry groups. -/
theorem translateServicePorts_eq (svc : Service) :
    translateServicePorts svc = svc.ports.flatMap portEntriesSpec := by
  have hg : ∀ (acc : List ServicePort) (p : Port),
      ((fun (acc : List ServicePort) (p : Port) =>
        let acc := acc ++
          [{ name := servicePortName p.containerPort p.containerPort p.protocol,
             port := p.containerPort, targetPort := p.containerPort,
             protocol := p.protocol }]
        if p.hostPort != 0 && p.hostPort != p.containerPort then
          acc ++
            [{ name := servicePortName p.hostPort p.containerPort p.protocol,
               port := p.hostPort, targetPort := p.containerPort,
               protocol := p.protocol }]
        else acc) acc p) = acc ++ portEntriesSpec p := by
    intro acc p
    by_cases h : (p.hostPort != 0 && p.hostPort != p.containerPort) = true <;>
      simp only [portEntriesSpec, h, if_pos, if_neg, if_true, if_false,
        Bool.false_eq_true, List.append_assoc, List.singleton_append,
        List.cons_append, List.nil_append, List.append_nil]
  have h2 : ([] : List ServicePort) ++ svc.ports.flatMap portEntriesSpec =
      svc.ports.flatMap portEntriesSpec := List.nil_append _
  exact (foldl_append_flatMap portEntriesSpec _ hg svc.ports []).trans h2

theorem volumeMountsFrom_getElem (vs : List StackVolume) :
    ∀ i j, (volumeMountsFrom i vs)[j]? =
      vs[j]?.map (fun v =>
        ({ mountPath := v.remotePath, name := pvcName,
           subPath := subPathName (i + j) } : VolumeMount)) := by
  induction vs with
  | nil => intro i j; simp [volumeMountsFrom]
  | cons v rest ih =>
    intro i j
    cases j with
    | zero => simp [volumeMountsFrom]
    | succ j =>
      rw [volumeMountsFrom, List.getElem?_cons_succ, List.getElem?_cons_succ,
        ih (i + 1) j]
      have hidx : i + 1 + j = i + (j + 1) := by omega
      rw [hidx]

theorem initVolumeMountsFrom_getElem (vs : List StackVolume) :
    ∀ i j, (initVolumeMountsFrom i vs)[j]? =
      vs[j]?.map (fun _ =>
        ({ mountPath := "/init-volume-" ++ toString (i + j), name := pvcName,
           subPath := subPathName (i + j) } : VolumeMount)) := by
  induction vs with
  | nil => intro i j; simp [initVolumeMountsFrom]
  | cons v rest ih =>
    intro i j
    cases j with
    | zero => simp [initVolumeMountsFrom]
    | succ j =>
      rw [initVolumeMountsFrom, List.getElem?_cons_succ, List.getElem?_cons_succ,
        ih (i + 1) j]
      have hidx : i + 1 + j = i + (j + 1) := by omega
      rw [hidx]

theorem affinityTerms_getElem (vs : List StackVolume) (j : Nat) :
    (affinityTerms vs)[j]? =
      vs[j]?.map (fun v =>
        ({ topologyKey := "kubernetes.io/hostname",
           matchExpressions :=
             [{ key := StackVolumeNameLabel ++ "-" ++ v.localPath,
                operator := "Exists" }] } : PodAffinityTerm)) := by
  simp [affinityTerms]

end Okteto

namespace Okteto

/-! ### Claim theorems -/

/-- C7: for every service and stack, the emitted cluster-internal
exposure object has type ClusterIP, regardless of the service's
public marker or annotations, and its selector is exactly the two
derived labels stack-name and stack-service-name. -/
theorem c7_cluster_ip_and_selector (svcName : String) (s : Stack) :
    (translateService svcName s).type = "ClusterIP" ∧
    (translateService svcName s).selector =
      [(StackNameLabel, s.name), (StackServiceNameLabel, svcName)] :=
  ⟨rfl, rfl⟩

/-- C10: environment translation returns the declared entries in
declaration order, dropping exactly the entries with an empty name
(entries with an empty value are kept), and an empty declared
environment yields the empty list. -/
theorem c10_environment_filter (svc : Service) :
    translateServiceEnvironment svc =
      svc.environment.filter (fun e => e.name != "") ∧
    (svc.environment = [] → translateServiceEnvironment svc = []) := by
  refine ⟨translateServiceEnvironment_eq_filter svc, fun h => ?_⟩
  rw [translateServiceEnvironment_eq_filter svc, h, List.filter_nil]

/-- C10 witness: the empty-environment test case. -/
theorem c10_environment_filter_witness :
    translateServiceEnvironment nilSvc = [] :=
  (c10_environment_filter nilSvc).2 rfl

/-- C2: the cluster-internal port list is built per declared port in
declared order, canonical entry first (the two-port test service yields
exactly the three expected entries in order), and a declared port whose
host port equals its container port contributes exactly one entry. -/
theorem c2_port_dedup (p : Port) (h : p.hostPort = p.containerPort) :
    (translateService svcNameFx portStack).ports =
      [{ name := "p-80-80-tcp", port := 80, targetPort := 80, protocol := "TCP" },
       { name := "p-82-80-tcp", port := 82, targetPort := 80, protocol := "TCP" },
       { name := "p-90-90-tcp", port := 90, targetPort := 90, protocol := "TCP" }] ∧
    (∀ svc : Service, translateServicePorts svc =
      svc.ports.flatMap portEntriesSpec) ∧
    portEntriesSpec p =
      [{ name := servicePortName p.containerPort p.containerPort p.protocol,
         port := p.containerPort, targetPort := p.containerPort,
         protocol := p.protocol }] := by
  refine ⟨by decide, translateServicePorts_eq, ?_⟩
  simp [portEntriesSpec, h]

/-- C2 witness: the single-entry port of the test, host port equal to
container port. -/
theorem c2_port_dedup_witness :
    portEntriesSpec redisPort =
      [{ name := "p-6379-6379-tcp", port := 6379, targetPort := 6379,
         protocol := "TCP" }] :=
  ((c2_port_dedup redisPort rfl).2.2).trans (by decide)

/-- C4: probe synthesis — a nil health check yields a nil probe;
otherwise the probe's initial delay is the start delay in whole
seconds, the failure threshold is the retry count, the timeout and
period are the timeout and interval durations in whole seconds. -/
theorem c4_probe_units (svc : Service) :
    (svc.healtcheck = none → getSvcProbe svc = none) ∧
    (∀ hc, svc.healtcheck = some hc →
      ∃ p, getSvcProbe svc = some p ∧
        p.initialDelaySeconds = hc.startPeriod / 1000000000 ∧
        p.failureThreshold = hc.retries ∧
        p.timeoutSeconds = hc.timeout / 1000000000 ∧
        p.periodSeconds = hc.interval / 1000000000) := by
  constructor
  · intro h
    rw [getSvcProbe, h]
  · intro hc h
    rw [getSvcProbe, h]
    exact ⟨_, rfl, rfl, rfl, rfl, rfl⟩

/-- C4 witness: the probe-test health check — a 30-second start delay
yields 30, a 5-minute timeout yields 300 — and the nil health check
yields none. -/
theorem c4_probe_units_witness :
    getSvcProbe nilSvc = none ∧
    ∃ p, getSvcProbe probeSvc = some p ∧
      p.initialDelaySeconds = 30 ∧ p.failureThreshold = 5 ∧
      p.timeoutSeconds = 300 ∧ p.periodSeconds = 45 := by
  constructor
  · exact (c4_probe_units nilSvc).1 rfl
  · obtain ⟨p, hp, h1, h2, h3, h4⟩ := (c4_probe_units probeSvc).2 probeHc rfl
    refine ⟨p, hp, ?_, ?_, ?_, ?_⟩
    · rw [h1]; decide
    · rw [h2]; decide
    · rw [h3]; decide
    · rw [h4]; decide

/-- C6: affinity synthesis returns none when the service declares no
named volumes (plain volume-mounts are ignored); otherwise one required
term per named volume in declaration order, each with the hostname
topology key and an existence check on the volume's affinity label
key. -/
theorem c6_affinity_terms (svc : Service) :
    (svc.volumes = [] → translateAffinity svc = none) ∧
    (svc.volumes ≠ [] → ∃ a, translateAffinity svc = some a ∧
      a.requiredTerms.length = svc.volumes.length ∧
      ∀ j : Nat, a.requiredTerms[j]? = (svc.volumes[j]?).map (fun v =>
        ({ topologyKey := "kubernetes.io/hostname",
           matchExpressions :=
             [{ key := StackVolumeNameLabel ++ "-" ++ v.localPath,
                operator := "Exists" }] } : PodAffinityTerm))) := by
  constructor
  · intro h
    simp [translateAffinity, affinityTerms, h]
  · intro h
    refine ⟨Affinity.mk (affinityTerms svc.volumes), ?_, ?_, ?_⟩
    · simp [translateAffinity, affinityTerms, h]
    · simp [affinityTerms]
    · intro j
      exact affinityTerms_getElem svc.volumes j

/-- C6 witness: the single-volume test service yields exactly one term
keyed on stack-volume-name-test with an exists operator. -/
theorem c6_affinity_terms_witness :
    translateAffinity nilSvc = none ∧
    ∃ a, translateAffinity affSvc = some a ∧
      a.requiredTerms.length = 1 ∧
      a.requiredTerms[0]? = some
        { topologyKey := "kubernetes.io/hostname",
          matchExpressions :=
            [{ key := "stack-volume-name-test", operator := "Exists" }] } := by
  constructor
  · exact (c6_affinity_terms nilSvc).1 rfl
  · obtain ⟨a, ha, hlen, hj⟩ := (c6_affinity_terms affSvc).2 (by decide)
    refine ⟨a, ha, by simpa using hlen, ?_⟩
    rw [hj 0]
    decide

end Okteto

namespace Okteto

theorem lookupL_cons_eq (k1 v1 : String) (rest : List (String × String)) :
    lookupL ((k1, v1) :: rest) k1 = some v1 := by
  simp [lookupL]

theorem lookupL_cons_ne (k1 v1 k : String) (h : k1 ≠ k)
    (rest : List (String × String)) :
    lookupL ((k1, v1) :: rest) k = lookupL rest k := by
  simp [lookupL, h]

theorem name_ne_svc : StackNameLabel ≠ StackServiceNameLabel := by decide

theorem name_ne_ep : StackNameLabel ≠ StackEndpointNameLabel := by decide

theorem lookupL_svcLabels_name (svcName : String) (s : Stack) (svc : Service) :
    lookupL (svcLabels svcName s svc) StackNameLabel = some s.name :=
  lookupL_cons_eq _ _ _

theorem lookupL_svcLabels_svcName (svcName : String) (s : Stack) (svc : Service) :
    lookupL (svcLabels svcName s svc) StackServiceNameLabel = some svcName := by
  rw [svcLabels, lookupL_cons_ne _ _ _ name_ne_svc, lookupL_cons_eq]

theorem lookupL_svcLabels_declared (svcName : String) (s : Stack) (svc : Service)
    (k v : String) (hk : lookupL svc.labels k = some v)
    (h1 : k ≠ StackNameLabel) (h2 : k ≠ StackServiceNameLabel) :
    lookupL (svcLabels svcName s svc) k = some v := by
  rw [svcLabels, lookupL_cons_ne _ _ _ (Ne.symm h1),
    lookupL_cons_ne _ _ _ (Ne.symm h2), hk]

end Okteto

namespace Okteto

/-- C1 (amended): the workloads and the cluster-internal service carry
the stack-name and stack-service-name labels and preserve declared
labels on non-derived keys; the per-service-port ingress carries the
stack-name label and preserves declared labels, but carries the
stack-service-name key only if the service itself declared it; the
per-endpoint ingress carries the stack-name and stack-endpoint-name
labels; the metadata snapshot carries the stack-owned marker label
instead of the stack-name label. -/
theorem c1_labels (svcName ingressName epName : String) (port : Nat)
    (s : Stack) (k v : String)
    (hk : lookupL (s.svc svcName).labels k = some v)
    (h1 : k ≠ StackNameLabel) (h2 : k ≠ StackServiceNameLabel) :
    lookupL (translateDeployment svcName s).labels StackNameLabel = some s.name ∧
    lookupL (translateDeployment svcName s).labels StackServiceNameLabel = some svcName ∧
    lookupL (translateDeployment svcName s).labels k = some v ∧
    lookupL (translateStatefulSet svcName s).labels StackNameLabel = some s.name ∧
    lookupL (translateStatefulSet svcName s).labels StackServiceNameLabel = some svcName ∧
    lookupL (translateStatefulSet svcName s).labels k = some v ∧
    lookupL (translateJob svcName s).labels StackNameLabel = some s.name ∧
    lookupL (translateJob svcName s).labels StackServiceNameLabel = some svcName ∧
    lookupL (translateJob svcName s).labels k = some v ∧
    lookupL (translateService svcName s).labels StackNameLabel = some s.name ∧
    lookupL (translateService svcName s).labels StackServiceNameLabel = some svcName ∧
    lookupL (translateService svcName s).labels k = some v ∧
    lookupL (translateServiceIngressV1 ingressName svcName port s).labels
      StackNameLabel = some s.name ∧
    lookupL (translateServiceIngressV1 ingressName svcName port s).labels k = some v ∧
    lookupL (translateServiceIngressV1 ingressName svcName port s).labels
        StackServiceNameLabel =
      lookupL (s.svc svcName).labels StackServiceNameLabel ∧
    lookupL (translateEndpointIngressV1 epName s).labels StackNameLabel = some s.name ∧
    lookupL (translateEndpointIngressV1 epName s).labels StackEndpointNameLabel = some epName ∧
    lookupL (translateConfigMap s).labels StackLabel = some trueStr := by
  refine ⟨lookupL_svcLabels_name _ _ _, lookupL_svcLabels_svcName _ _ _,
    lookupL_svcLabels_declared _ _ _ _ _ hk h1 h2,
    lookupL_svcLabels_name _ _ _, lookupL_svcLabels_svcName _ _ _,
    lookupL_svcLabels_declared _ _ _ _ _ hk h1 h2,
    lookupL_svcLabels_name _ _ _, lookupL_svcLabels_svcName _ _ _,
    lookupL_svcLabels_declared _ _ _ _ _ hk h1 h2,
    lookupL_svcLabels_name _ _ _, lookupL_svcLabels_svcName _ _ _,
    lookupL_svcLabels_declared _ _ _ _ _ hk h1 h2,
    lookupL_cons_eq _ _ _,
    (lookupL_cons_ne _ _ _ (Ne.symm h1) _).trans hk,
    lookupL_cons_ne _ _ _ name_ne_svc _,
    lookupL_cons_eq _ _ _,
    (lookupL_cons_ne _ _ _ name_ne_ep _).trans (lookupL_cons_eq _ _ _),
    lookupL_cons_eq _ _ _⟩

/-- C1 counterexample: in the ingress test fixture, the per-service-port
routing object carries no stack-service-name label at all, although the
claim requires it on every service-scoped emitted object. -/
theorem c1_labels_counterexample :
    lookupL (translateServiceIngressV1 ingNameFx svc1Fx 8080 ingressStack).labels
      StackServiceNameLabel = none := by decide

/-- C1 witness: the workload-test fixture, at the declared label key. -/
theorem c1_labels_witness :
    lookupL (translateDeployment svcNameFx jobStack).labels label1 = some value1 ∧
    lookupL (translateService svcNameFx jobStack).labels StackServiceNameLabel =
      some svcNameFx := by
  have h := c1_labels svcNameFx ingNameFx epNameFx 8080 jobStack label1 value1
    (by decide) (by decide) (by decide)
  exact ⟨h.2.2.1, h.2.2.2.2.2.2.2.2.2.2.1⟩

/-- C3: a batch service (restart policy other than always) maps to the
Job kind with completions equal to the replica count, parallelism 1 and
backoff limit equal to the declared retry limit; with two declared
volumes its pod template has exactly two init containers and main
container volume mounts with sub-paths data-0 and data-1, but never a
volume-claim template. -/
theorem c3_job_shape (svcName : String) (s : Stack)
    (h : (s.svc svcName).restartPolicy ≠ "Always") :
    workloadKind (s.svc svcName) = WorkloadKind.job ∧
    (translateJob svcName s).completions = (s.svc svcName).replicas ∧
    (translateJob svcName s).parallelism = 1 ∧
    (translateJob svcName s).backoffLimit = (s.svc svcName).backOffLimit ∧
    ((s.svc svcName).volumes.length = 2 →
      (translateJob svcName s).template.spec.initContainers.length = 2 ∧
      ((translateJob svcName s).template.spec.containers.map
          (fun c => c.volumeMounts.map (fun m => m.subPath))) =
        [["data-0", "data-1"]] ∧
      (translateJob svcName s).volumeClaimTemplates = []) := by
  refine ⟨by simp [workloadKind, h], rfl, rfl, rfl, fun hv => ?_⟩
  obtain ⟨v1, v2, hvol⟩ := List.length_eq_two.mp hv
  refine ⟨?_, ?_, rfl⟩
  · simp [translateJob, translatePodTemplate, getInitContainers, hvol]
  · simp only [translateJob, translatePodTemplate, translateContainer,
      mainVolumeMounts, volumeMountsFrom, subPathName, hvol, List.map_cons,
      List.map_nil]
    decide

/-- C3 witness: the Job-with-volumes test fixture. -/
theorem c3_job_shape_witness :
    workloadKind (jobStack.svc svcNameFx) = WorkloadKind.job ∧
    (translateJob svcNameFx jobStack).completions = 3 ∧
    (translateJob svcNameFx jobStack).parallelism = 1 ∧
    (translateJob svcNameFx jobStack).backoffLimit = 5 ∧
    (translateJob svcNameFx jobStack).template.spec.initContainers.length = 2 ∧
    (translateJob svcNameFx jobStack).volumeClaimTemplates = [] := by
  have h := c3_job_shape svcNameFx jobStack (by decide)
  have hv := h.2.2.2.2 (by decide)
  exact ⟨h.1, h.2.1.trans (by decide), h.2.2.1, h.2.2.2.1.trans (by decide),
    hv.1, hv.2.2⟩

end Okteto

namespace Okteto

/-- C5: a service with declared volumes gets exactly two init
containers — first the generic busybox container that chmods the
claim's root mount at the fixed staging path with no sub-path, then a
seed container using the service's own image with pull-policy
IfNotPresent whose command copies each volume's remote path into its
staging path; the i-th declared volume receives sub-path data-i both in
the seed container's mount and in the main container's mount at the
volume's remote path. -/
theorem c5_volume_subpaths (svcName : String) (s : Stack)
    (h : (s.svc svcName).volumes ≠ []) :
    ∃ seed,
      (translateStatefulSet svcName s).template.spec.initContainers =
        [{ name := "init-" ++ svcName, image := "busybox",
           command := ["sh", "-c", "chmod 777 /data"],
           volumeMounts := [{ mountPath := "/data", name := pvcName,
                              subPath := "" }] },
         seed] ∧
      seed.image = (s.svc svcName).image ∧
      seed.imagePullPolicy = "IfNotPresent" ∧
      seed.command = ["sh", "-c",
        "echo initializing volume..." ++
          copyCommandsFrom 0 (s.svc svcName).volumes] ∧
      (∀ j : Nat, seed.volumeMounts[j]? =
        ((s.svc svcName).volumes[j]?).map (fun _ =>
          ({ mountPath := "/init-volume-" ++ toString j, name := pvcName,
             subPath := "data-" ++ toString j } : VolumeMount))) ∧
      (∀ j : Nat,
        ((translateStatefulSet svcName s).template.spec.containers.map
          (fun c => c.volumeMounts[j]?)) =
        [((s.svc svcName).volumes[j]?).map (fun v =>
          ({ mountPath := v.remotePath, name := pvcName,
             subPath := "data-" ++ toString j } : VolumeMount))]) := by
  refine ⟨seedInitContainer svcName (s.svc svcName), ?_, rfl, rfl, rfl, ?_, ?_⟩
  · simp [translateStatefulSet, translatePodTemplate, getInitContainers, h,
      chmodInitContainer]
  · intro j
    have hm := initVolumeMountsFrom_getElem (s.svc svcName).volumes 0 j
    simpa [seedInitContainer, subPathName] using hm
  · intro j
    have hm := volumeMountsFrom_getElem (s.svc svcName).volumes 0 j
    simp [translateStatefulSet, translatePodTemplate, translateContainer]
    simpa [mainVolumeMounts, subPathName] using hm

/-- C5 witness: the two-volume test fixture, whose seed command and
mounts match the expected containers of the test. -/
theorem c5_volume_subpaths_witness :
    ∃ seed,
      (translateStatefulSet svcNameFx jobStack).template.spec.initContainers =
        [{ name := "init-svcName", image := "busybox",
           command := ["sh", "-c", "chmod 777 /data"],
           volumeMounts := [{ mountPath := "/data", name := pvcName,
                              subPath := "" }] },
         seed] ∧
      seed.image = "image" ∧
      seed.imagePullPolicy = "IfNotPresent" ∧
      seed.command = ["sh", "-c",
        "echo initializing volume... && (cp -Rv /volume1/. /init-volume-0 || true) && (cp -Rv /volume2/. /init-volume-1 || true)"] ∧
      seed.volumeMounts[0]? = some
        ({ mountPath := "/init-volume-0", name := pvcName,
           subPath := "data-0" } : VolumeMount) ∧
      seed.volumeMounts[1]? = some
        ({ mountPath := "/init-volume-1", name := pvcName,
           subPath := "data-1" } : VolumeMount) := by
  obtain ⟨seed, hics, him, hip, hcmd, hsm, hmm⟩ :=
    c5_volume_subpaths svcNameFx jobStack (by decide)
  refine ⟨seed, ?_, him.trans (by decide), hip, hcmd.trans (by decide),
    (hsm 0).trans (by decide), (hsm 1).trans (by decide)⟩
  rw [hics]
  have hc : ("init-" ++ svcNameFx) = "init-svcName" := by decide
  rw [hc]

end Okteto

namespace Okteto

/-- C8: the workload container's security context is unset (none) when
both capability lists are empty, and set with exactly the two declared
lists when either is non-empty — on all three workload kinds. -/
theorem c8_security_context (svcName : String) (s : Stack) :
    ((s.svc svcName).capAdd = [] ∧ (s.svc svcName).capDrop = [] →
      ((translateDeployment svcName s).template.spec.containers.map
        (fun c => c.securityContext)) = [none] ∧
      ((translateStatefulSet svcName s).template.spec.containers.map
        (fun c => c.securityContext)) = [none] ∧
      ((translateJob svcName s).template.spec.containers.map
        (fun c => c.securityContext)) = [none]) ∧
    ((s.svc svcName).capAdd ≠ [] ∨ (s.svc svcName).capDrop ≠ [] →
      ((translateDeployment svcName s).template.spec.containers.map
        (fun c => c.securityContext)) =
        [some { capabilities := { add := (s.svc svcName).capAdd,
                                  drop := (s.svc svcName).capDrop } }] ∧
      ((translateStatefulSet svcName s).template.spec.containers.map
        (fun c => c.securityContext)) =
        [some { capabilities := { add := (s.svc svcName).capAdd,
                                  drop := (s.svc svcName).capDrop } }] ∧
      ((translateJob svcName s).template.spec.containers.map
        (fun c => c.securityContext)) =
        [some { capabilities := { add := (s.svc svcName).capAdd,
                                  drop := (s.svc svcName).capDrop } }]) := by
  constructor
  · intro had
    have hg : getSvcSecurityContext (s.svc svcName) = none := by
      simp [getSvcSecurityContext, had.1, had.2]
    refine ⟨?_, ?_, ?_⟩ <;>
      simp [translateDeployment, translateStatefulSet, translateJob,
        translatePodTemplate, translateContainer, hg]
  · intro hor
    have hg : getSvcSecurityContext (s.svc svcName) =
        some { capabilities := { add := (s.svc svcName).capAdd,
                                 drop := (s.svc svcName).capDrop } } := by
      rcases hor with h | h <;> simp [getSvcSecurityContext, h]
    refine ⟨?_, ?_, ?_⟩ <;>
      simp [translateDeployment, translateStatefulSet, translateJob,
        translatePodTemplate, translateContainer, hg]

/-- C8 witness: the capability-free port-test service yields an unset
security context; the capability-bearing workload-test service yields
exactly its two lists. -/
theorem c8_security_context_witness :
    ((translateDeployment svcNameFx portStack).template.spec.containers.map
      (fun c => c.securityContext)) = [none] ∧
    ((translateJob svcNameFx jobStack).template.spec.containers.map
      (fun c => c.securityContext)) =
      [some { capabilities := { add := ["CAP_ADD"], drop := ["CAP_DROP"] } }] := by
  constructor
  · exact ((c8_security_context svcNameFx portStack).1 (by decide)).1
  · exact ((c8_security_context svcNameFx jobStack).2
      (Or.inl (by decide))).2.2.trans (by decide)

/-- C9: the metadata snapshot is named with the okteto prefix, carries
the stack name under the name data key, and carries a payload under the
yaml data key whose base64 decoding is exactly the original manifest
bytes. -/
theorem c9_configmap_roundtrip (s : Stack) (h : ∀ b ∈ s.manifest, b < 256) :
    (translateConfigMap s).name = "okteto-" ++ s.name ∧
    lookupL (translateConfigMap s).data NameField = some s.name ∧
    ∃ payload, lookupL (translateConfigMap s).data YamlField = some payload ∧
      b64decode payload = some s.manifest := by
  refine ⟨rfl, lookupL_cons_eq _ _ _, b64encode s.manifest, ?_,
    b64_roundtrip s.manifest h⟩
  exact (lookupL_cons_ne _ _ _ (by decide) _).trans (lookupL_cons_eq _ _ _)

/-- C9 witness: the config-map test stack, whose manifest bytes spell
the word manifest. -/
theorem c9_configmap_roundtrip_witness :
    (translateConfigMap cmStack).name = "okteto-stackName" ∧
    lookupL (translateConfigMap cmStack).data NameField = some cmStack.name ∧
    ∃ payload, lookupL (translateConfigMap cmStack).data YamlField = some payload ∧
      b64decode payload = some cmStack.manifest := by
  have h := c9_configmap_roundtrip cmStack (by decide)
  exact ⟨h.1.trans (by decide), h.2.1, h.2.2⟩

end Okteto
